import Mathlib

/-!
Verification of the segmented-download program (`src/main.py`) against its
natural-language specification.

The embedding is shallow: each Python function of `main.py` becomes a Lean
function over an explicit environment (`Env`) describing the observable
behaviour of the external collaborators (HTTP responses, filesystem), and
returns the list of observable events it performs together with its result.
Python exceptions are modelled by `PyResult`; the library collaborators that
the code's behaviour depends on (`str.format`, `int`, `hashlib.sha256`) are
modelled faithfully where their semantics decide a claim.
-/

/-- Result of running a piece of Python code: either a normal value or a
raised exception (carrying a rendering of the exception). -/
inductive PyResult (α : Type) where
  | ok (a : α)
  | exn (e : String)
deriving DecidableEq, Repr

namespace PyResult

def map {α β : Type} (f : α → β) : PyResult α → PyResult β
  | .ok a => .ok (f a)
  | .exn e => .exn e

end PyResult

/-! ## Model of Python's `str.format`

`main.py` calls `"{filename}: {hash_digest}".format(filename, hash_digest)`:
a template with *named* replacement fields applied to *positional* arguments.
Python resolves a named field only against keyword arguments; a missing name
raises `KeyError`.  Auto-numbered fields `{}` consume positional arguments in
order. -/

/-- One parsed piece of a format template: literal text, an auto-numbered
field `\x7b\x7d`, or a named field `\x7bname\x7d`. -/
inductive FormatPart where
  | lit (s : String)
  | auto
  | field (name : String)
deriving DecidableEq, Repr

/-- Keyword-argument lookup used by named replacement fields. -/
def lookupKw (kwargs : List (String × String)) (name : String) : Option String :=
  (kwargs.find? (fun p => p.1 == name)).map Prod.snd

/-- Python `str.format` over a parsed template: auto fields consume the
positional arguments in order (IndexError when exhausted); named fields are
resolved only against keyword arguments (KeyError when absent). -/
def pyFormat : List FormatPart → List String → List (String × String) → PyResult String
  | [], _, _ => .ok ""
  | .lit s :: rest, args, kwargs => (pyFormat rest args kwargs).map (fun t => s ++ t)
  | .auto :: _, [], _ => .exn "IndexError: tuple index out of range"
  | .auto :: rest, a :: args, kwargs => (pyFormat rest args kwargs).map (fun t => a ++ t)
  | .field n :: rest, args, kwargs =>
    match lookupKw kwargs n with
    | none => .exn ("KeyError: " ++ n)
    | some v => (pyFormat rest args kwargs).map (fun t => v ++ t)

/-! ## Model of Python's `int` applied to a header string -/

def isDigitChar (c : Char) : Bool := 48 ≤ c.toNat && c.toNat ≤ 57

def digitsVal (ds : List Char) : ℕ :=
  ds.foldl (fun acc c => 10 * acc + (c.toNat - 48)) 0

/-- Python `int(s)` on a string: surrounding spaces are stripped, an optional
sign is allowed, then one or more decimal digits; anything else raises
`ValueError`. -/
def pyInt (s : String) : PyResult ℤ :=
  let cs := ((s.data.dropWhile (fun c => c == ' ')).reverse.dropWhile
    (fun c => c == ' ')).reverse
  match cs with
  | '-' :: ds =>
    if ds ≠ [] ∧ ds.all isDigitChar then .ok (-(digitsVal ds : ℤ))
    else .exn "ValueError"
  | '+' :: ds =>
    if ds ≠ [] ∧ ds.all isDigitChar then .ok (digitsVal ds : ℤ)
    else .exn "ValueError"
  | ds =>
    if ds ≠ [] ∧ ds.all isDigitChar then .ok (digitsVal ds : ℤ)
    else .exn "ValueError"

/-! ## Model of `hashlib.sha256(...).hexdigest()` (FIPS 180-4) -/

def rotr32 (x n : ℕ) : ℕ := ((x >>> n) ||| (x <<< (32 - n))) % 2 ^ 32

def bigSigma0 (x : ℕ) : ℕ := rotr32 x 2 ^^^ rotr32 x 13 ^^^ rotr32 x 22

def bigSigma1 (x : ℕ) : ℕ := rotr32 x 6 ^^^ rotr32 x 11 ^^^ rotr32 x 25

def smallSigma0 (x : ℕ) : ℕ := rotr32 x 7 ^^^ rotr32 x 18 ^^^ (x >>> 3)

def smallSigma1 (x : ℕ) : ℕ := rotr32 x 17 ^^^ rotr32 x 19 ^^^ (x >>> 10)

def chFn (x y z : ℕ) : ℕ := (x &&& y) ^^^ ((x ^^^ (2 ^ 32 - 1)) &&& z)

def majFn (x y z : ℕ) : ℕ := (x &&& y) ^^^ (x &&& z) ^^^ (y &&& z)

/-- The 64 SHA-256 round constants. -/
def K256 : List ℕ :=
  [1116352408, 1899447441, 3049323471, 3921009573, 961987163,
   1508970993, 2453635748, 2870763221, 3624381080, 310598401,
   607225278, 1426881987, 1925078388, 2162078206, 2614888103,
   3248222580, 3835390401, 4022224774, 264347078, 604807628,
   770255983, 1249150122, 1555081692, 1996064986, 2554220882,
   2821834349, 2952996808, 3210313671, 3336571891, 3584528711,
   113926993, 338241895, 666307205, 773529912, 1294757372,
   1396182291, 1695183700, 1986661051, 2177026350, 2456956037,
   2730485921, 2820302411, 3259730800, 3345764771, 3516065817,
   3600352804, 4094571909, 275423344, 430227734, 506948616,
   659060556, 883997877, 958139571, 1322822218, 1537002063,
   1747873779, 1955562222, 2024104815, 2227730452, 2361852424,
   2428436474, 2756734187, 3204031479, 3329325298]

/-- The eight 32-bit words of a SHA-256 state. -/
structure Hash8 where
  w0 : ℕ
  w1 : ℕ
  w2 : ℕ
  w3 : ℕ
  w4 : ℕ
  w5 : ℕ
  w6 : ℕ
  w7 : ℕ
deriving DecidableEq, Repr

/-- SHA-256 initial hash value. -/
def initH : Hash8 :=
  ⟨1779033703, 3144134277, 1013904242, 2773480762,
   1359893119, 2600822924, 528734635, 1541459225⟩

/-- The 64-bit big-endian byte rendering of the message bit length. -/
def lengthBytes (n : ℕ) : List ℕ :=
  [n / 2 ^ 56 % 256, n / 2 ^ 48 % 256, n / 2 ^ 40 % 256, n / 2 ^ 32 % 256,
   n / 2 ^ 24 % 256, n / 2 ^ 16 % 256, n / 2 ^ 8 % 256, n % 256]

/-- SHA-256 padding: append `0x80`, zero bytes up to 56 mod 64, then the
bit length in 8 big-endian bytes. -/
def sha256pad (msg : List ℕ) : List ℕ :=
  msg.map (fun b => b % 256) ++ [128] ++
    List.replicate ((119 - msg.length % 64) % 64) 0 ++
    lengthBytes (8 * msg.length)

/-- Group bytes four at a time into big-endian 32-bit words. -/
def bytesToWords : List ℕ → List ℕ
  | b0 :: b1 :: b2 :: b3 :: rest =>
    (b0 % 256 * 2 ^ 24 + b1 % 256 * 2 ^ 16 + b2 % 256 * 2 ^ 8 + b3 % 256) ::
      bytesToWords rest
  | _ => []

/-- Extend the 16 block words by `n` further schedule words. -/
def extendWords : ℕ → List ℕ → List ℕ
  | 0, ws => ws
  | n + 1, ws =>
    let t := ws.length
    let w := (smallSigma1 (ws.getD (t - 2) 0) + ws.getD (t - 7) 0 +
      smallSigma0 (ws.getD (t - 15) 0) + ws.getD (t - 16) 0) % 2 ^ 32
    extendWords n (ws ++ [w])

/-- One SHA-256 compression round on the working variables. -/
def roundStep (v : Hash8) (wk : ℕ × ℕ) : Hash8 :=
  let t1 := (v.w7 + bigSigma1 v.w4 + chFn v.w4 v.w5 v.w6 + wk.2 + wk.1) % 2 ^ 32
  let t2 := (bigSigma0 v.w0 + majFn v.w0 v.w1 v.w2) % 2 ^ 32
  ⟨(t1 + t2) % 2 ^ 32, v.w0, v.w1, v.w2, (v.w3 + t1) % 2 ^ 32, v.w4, v.w5, v.w6⟩

/-- Compress one 64-byte block into the running hash state. -/
def compress (st : Hash8) (block : List ℕ) : Hash8 :=
  let ws := extendWords 48 (bytesToWords block)
  let f := (ws.zip K256).foldl roundStep st
  ⟨(st.w0 + f.w0) % 2 ^ 32, (st.w1 + f.w1) % 2 ^ 32, (st.w2 + f.w2) % 2 ^ 32,
   (st.w3 + f.w3) % 2 ^ 32, (st.w4 + f.w4) % 2 ^ 32, (st.w5 + f.w5) % 2 ^ 32,
   (st.w6 + f.w6) % 2 ^ 32, (st.w7 + f.w7) % 2 ^ 32⟩

/-- Split a byte list into successive 64-byte blocks. -/
def toBlocks (l : List ℕ) : List (List ℕ) :=
  if h : l = [] then [] else l.take 64 :: toBlocks (l.drop 64)
termination_by l.length
decreasing_by
  simp only [List.length_drop]
  have := List.length_pos.mpr h
  omega

/-- The SHA-256 state of a byte message. -/
def sha256words (msg : List ℕ) : Hash8 :=
  (toBlocks (sha256pad msg)).foldl compress initH

/-- The sixteen lowercase hexadecimal digit characters. -/
def hexDigitChars : List Char := "0123456789abcdef".data

/-- The lowercase hexadecimal digit for a nibble value. -/
def nibbleChar (n : ℕ) : Char :=
  if n = 0 then '0' else if n = 1 then '1' else if n = 2 then '2'
  else if n = 3 then '3' else if n = 4 then '4' else if n = 5 then '5'
  else if n = 6 then '6' else if n = 7 then '7' else if n = 8 then '8'
  else if n = 9 then '9' else if n = 10 then 'a' else if n = 11 then 'b'
  else if n = 12 then 'c' else if n = 13 then 'd' else if n = 14 then 'e'
  else 'f'

/-- The eight hex characters of one 32-bit word, most significant nibble
first. -/
def wordHex (w : ℕ) : List Char :=
  [nibbleChar (w / 16 ^ 7 % 16), nibbleChar (w / 16 ^ 6 % 16),
   nibbleChar (w / 16 ^ 5 % 16), nibbleChar (w / 16 ^ 4 % 16),
   nibbleChar (w / 16 ^ 3 % 16), nibbleChar (w / 16 ^ 2 % 16),
   nibbleChar (w / 16 % 16), nibbleChar (w % 16)]

/-- `hashlib.sha256(content).hexdigest()`: the 64-character lowercase
hexadecimal rendering of the SHA-256 digest. -/
def sha256hex (msg : List ℕ) : String :=
  let h := sha256words msg
  String.mk (wordHex h.w0 ++ wordHex h.w1 ++ wordHex h.w2 ++ wordHex h.w3 ++
    wordHex h.w4 ++ wordHex h.w5 ++ wordHex h.w6 ++ wordHex h.w7)

/-! ## Configuration constants

`main.py` imports `BLOCK_SIZE, NUM_OF_BLOCKS, REPO_URL, TEMP_DIR` from
`constants`, a module of this repository that is not under `src/`. -/

/-- Modelled from the spec: `constants.py` (not under `src/`) supplies
`NUM_OF_BLOCKS`, the configured segment count.  The spec's concrete scenario
(`totalSize = 3000`, `segmentCount = 3` giving chunks of 1000) and the
repository's own test `TestDownloadRepo` (which expects artifacts
`temp_{i*1000}_{i*1000+999}`) fix it at 3. -/
def NUM_OF_BLOCKS : ℕ := 3

/-- Modelled from the spec: `constants.py` (not under `src/`) supplies
`TEMP_DIR`, the destination directory path.  Its concrete value is immaterial
to every claim; only its use in artifact paths matters. -/
def TEMP_DIR : String := "temp"

/-! ## Observable events and the environment -/

/-- One observable action of the program.  Each constructor corresponds to a
distinct call site in `main.py` (the log constructors to its distinct
`logger.error` messages). -/
inductive Event where
  /-- `session.head(REPO_URL)` issued. -/
  | headRequest
  /-- `logger.error("Failed to connect to server: ...")` in
  `get_content_length`. -/
  | logConnError
  /-- `os.makedirs(TEMP_DIR)` in `create_temp_dir`. -/
  | mkdir
  /-- `logger.error("Failed to create directory: ...")` in `create_temp_dir`. -/
  | logDirError
  /-- `session.get(REPO_URL, headers={Range: bytes=start-stop})` in
  `download_chunk`. -/
  | rangeGet (start stop : ℤ)
  /-- The artifact file left on disk by `download_chunk` (its path and the
  concatenation of the streamed increments written to it). -/
  | fileWrite (path : String) (content : List ℕ)
  /-- `logger.error("Failed to download chunk: ...")` in `download_chunk`. -/
  | logChunkError
  /-- `logger.error("Failed to download repository: ...")` in
  `download_chunks`. -/
  | logRepoError
  /-- `open(filepath, "rb")` succeeding in `download_and_hash_file`. -/
  | fileRead (path : String)
  /-- `logger.info(...)` in `compute_file_hashes`. -/
  | logInfo (line : String)
  /-- `logger.error("Failed to hash file: ...")` in `compute_file_hashes`. -/
  | logHashError (cause : String)
deriving DecidableEq, Repr

/-- Behaviour of one ranged `GET` issued by `download_chunk`: the request
itself raises (connection refused/reset before any body), or it streams a
list of body increments, possibly raising after them (`midFail`) while
iterating the body. -/
inductive FetchOutcome where
  | connError
  | stream (increments : List (List ℕ)) (midFail : Bool)

/-- The observable behaviour of the external collaborators for one run:
the `HEAD` response (`none` = connection error), the filesystem's answers for
the destination directory, the behaviour of each ranged `GET` (keyed by the
requested byte range), and the directory listing with each file's readable
content (`none` = unreadable/missing) as seen by the digesting pass. -/
structure Env where
  headResponse : Option (List (String × String))
  dirExists : Bool
  mkdirOk : Bool
  fetch : ℤ → ℤ → FetchOutcome
  listing : List (String × Option (List ℕ))

/-- ASCII lowercasing of one character. -/
def lowerChar (c : Char) : Char :=
  if 65 ≤ c.toNat ∧ c.toNat ≤ 90 then Char.ofNat (c.toNat + 32) else c

/-- ASCII lowercasing of a string. -/
def lowerStr (s : String) : String := String.mk (s.data.map lowerChar)

/-- Case-insensitive header lookup, as aiohttp's response headers provide. -/
def headerGet (headers : List (String × String)) (key : String) : Option String :=
  (headers.find? (fun p => lowerStr p.1 == lowerStr key)).map Prod.snd

/-! ## The functions of `main.py` -/

/-- `get_content_length(logger, session)`: issues `HEAD REPO_URL` and reads
`int(response.headers.get('Content-Length', 0))`.  Only
`ClientConnectorError` is caught (logging and falling through to Python's
implicit `None`); an absent header defaults to `0`; an unparsable header
value raises an uncaught `ValueError`. -/
def get_content_length (env : Env) : List Event × PyResult (Option ℤ) :=
  match env.headResponse with
  | none => ([.headRequest, .logConnError], .ok none)
  | some headers =>
    match headerGet headers "Content-Length" with
    | none => ([.headRequest], .ok (some 0))
    | some s =>
      match pyInt s with
      | .ok n => ([.headRequest], .ok (some n))
      | .exn e => ([.headRequest], .exn e)

/-- `create_temp_dir(logger)`: if `TEMP_DIR` does not exist, attempt
`os.makedirs`, logging and returning `False` on `OSError`; otherwise (and on
success) return `True`. -/
def create_temp_dir (env : Env) : List Event × Bool :=
  if env.dirExists then ([], true)
  else if env.mkdirOk then ([.mkdir], true)
  else ([.logDirError], false)

/-- The byte ranges planned by the loop of `download_chunks`:
`chunk_size = content_length // num_of_blocks` (Python floor division), and
for each `i` in `range(num_of_blocks)`: `start = i * chunk_size`,
`end = start + chunk_size - 1`, overwritten with `content_length` when
`i == 2` (the index is hard-coded in the source). -/
def plannedRanges (content_length : ℤ) (num_of_blocks : ℕ) : List (ℤ × ℤ) :=
  let chunk_size := Int.fdiv content_length num_of_blocks
  (List.range num_of_blocks).map (fun i =>
    let start := (i : ℤ) * chunk_size
    (start, if i == 2 then content_length else start + chunk_size - 1))

/-- The artifact path `os.path.join(temp_dir, "temp_{}_{}".format(start, end))`
used by `download_chunk`. -/
def chunkPath (temp_dir : String) (start stop : ℤ) : String :=
  temp_dir ++ "/temp_" ++ toString start ++ "_" ++ toString stop

/-- `download_chunk(session, start, end, temp_dir, logger)`: issues the
ranged `GET`; on success opens the artifact file (truncating) and writes each
streamed increment.  The surrounding `try`/`except Exception` catches *every*
failure, logs it, and returns (Python's implicit `None`) — so the result is
`.ok ()` in every case. -/
def download_chunk (env : Env) (start stop : ℤ) (temp_dir : String) :
    List Event × PyResult Unit :=
  match env.fetch start stop with
  | .connError => ([.rangeGet start stop, .logChunkError], .ok ())
  | .stream increments midFail =>
    ([.rangeGet start stop,
      .fileWrite (chunkPath temp_dir start stop) increments.flatten] ++
      (if midFail then [.logChunkError] else []), .ok ())

/-- `asyncio.gather(*tasks)`: the results of all tasks, or the first raised
exception. -/
def gather : List (PyResult Unit) → PyResult (List Unit)
  | [] => .ok []
  | .ok a :: rest => (gather rest).map (fun l => a :: l)
  | .exn e :: _ => .exn e

/-- The `tasks` list of `download_chunks`: one `download_chunk` run per
planned range. -/
def chunkRuns (env : Env) (content_length : ℤ) : List (List Event × PyResult Unit) :=
  (plannedRanges content_length NUM_OF_BLOCKS).map
    (fun r => download_chunk env r.1 r.2 TEMP_DIR)

/-- `download_chunks(logger, session, content_length)`: plans the ranges,
dispatches one `download_chunk` task per range, and awaits them with
`asyncio.gather`; returns `True` on normal completion and `False` (after
logging) if `gather` raises. -/
def download_chunks (env : Env) (content_length : ℤ) : List Event × Bool :=
  match gather ((chunkRuns env content_length).map Prod.snd) with
  | .ok _ => (((chunkRuns env content_length).map Prod.fst).flatten, true)
  | .exn _ =>
    (((chunkRuns env content_length).map Prod.fst).flatten ++ [.logRepoError],
      false)

/-- `download_and_hash_file(filepath, logger)`: opens the file in binary
mode (raising if missing/unreadable), reads its full content, and returns
`hashlib.sha256(content).hexdigest()`. -/
def download_and_hash_file (path : String) (content : Option (List ℕ)) :
    List Event × PyResult String :=
  match content with
  | none => ([], .exn "FileNotFoundError")
  | some c => ([.fileRead path], .ok (sha256hex c))

/-- The format template of the `logger.info` call in `compute_file_hashes`:
`"{filename}: {hash_digest}"` — two *named* fields, while the call passes
`filename` and `hash_digest` *positionally*. -/
def hashLineTemplate : List FormatPart :=
  [.field "filename", .lit ": ", .field "hash_digest"]

/-- `compute_file_hashes(logger)`: for each entry of `os.listdir(TEMP_DIR)`,
hash the file and log `"{filename}: {hash_digest}".format(filename,
hash_digest)`; any exception in the body (a failed read, or the `KeyError`
the named-field/positional-argument format call raises) is logged and makes
the function return `False` immediately; otherwise `True`. -/
def compute_file_hashes : List (String × Option (List ℕ)) → List Event × Bool
  | [] => ([], true)
  | (filename, content) :: rest =>
    let run := download_and_hash_file (TEMP_DIR ++ "/" ++ filename) content
    match run.2 with
    | .exn err => (run.1 ++ [.logHashError err], false)
    | .ok hash_digest =>
      match pyFormat hashLineTemplate [filename, hash_digest] [] with
      | .exn err => (run.1 ++ [.logHashError err], false)
      | .ok line =>
        let rec' := compute_file_hashes rest
        (run.1 ++ [.logInfo line] ++ rec'.1, rec'.2)

/-- How a run of `download_repo` ended: an uncaught exception, an early
`return` at one of the three stage gates, a digest-stage `return`, or
falling off the end with every stage succeeded. -/
inductive SessionEnd where
  | crashed (e : String)
  | discoveryFailed
  | prepFailed
  | transferFailed
  | digestFailed
  | completed
deriving DecidableEq, Repr

/-- `download_repo(logger)`: size discovery, then destination preparation,
then transfer, then digesting — each guarded by an early `return` on
failure. -/
def download_repo (env : Env) : List Event × SessionEnd :=
  match (get_content_length env).2 with
  | .exn e => ((get_content_length env).1, .crashed e)
  | .ok none => ((get_content_length env).1, .discoveryFailed)
  | .ok (some content_length) =>
    if (create_temp_dir env).2 then
      if (download_chunks env content_length).2 then
        ((get_content_length env).1 ++ (create_temp_dir env).1 ++
          (download_chunks env content_length).1 ++
          (compute_file_hashes env.listing).1,
          if (compute_file_hashes env.listing).2 then .completed
          else .digestFailed)
      else
        ((get_content_length env).1 ++ (create_temp_dir env).1 ++
          (download_chunks env content_length).1, .transferFailed)
    else ((get_content_length env).1 ++ (create_temp_dir env).1, .prepFailed)

/-! ## Stage classification of events and concrete environments -/

/-- The stage of the session an event belongs to: 0 size discovery,
1 destination preparation, 2 transfer, 3 digesting. -/
def stageOf : Event → ℕ
  | .headRequest => 0
  | .logConnError => 0
  | .mkdir => 1
  | .logDirError => 1
  | .rangeGet _ _ => 2
  | .fileWrite _ _ => 2
  | .logChunkError => 2
  | .logRepoError => 2
  | .fileRead _ => 3
  | .logInfo _ => 3
  | .logHashError _ => 3

/-- Whether an event is part of dispatching a segment fetch. -/
def isFetchEvent : Event → Bool
  | .rangeGet _ _ => true
  | .fileWrite _ _ => true
  | _ => false

/-- Whether an event is part of the digesting pass. -/
def isDigestEvent : Event → Bool
  | .fileRead _ => true
  | .logInfo _ => true
  | .logHashError _ => true
  | _ => false

/-- Environment where the `HEAD` request raises `ClientConnectorError`. -/
def envConnError : Env :=
  { headResponse := none, dirExists := false, mkdirOk := true,
    fetch := fun _ _ => .stream [] false, listing := [] }

/-- Environment where the `HEAD` response carries no `Content-Length`
header and everything else succeeds. -/
def envNoHeader : Env :=
  { headResponse := some [("Server", "x")], dirExists := false, mkdirOk := true,
    fetch := fun _ _ => .stream [] false, listing := [] }

/-- A destination-directory listing holding one perfectly readable file. -/
def listingOneFile : List (String × Option (List ℕ)) :=
  [("temp_0_999", some [97, 98, 99])]

/-- Environment for a 3000-byte resource where the middle segment's ranged
`GET` (the one starting at offset 1000) fails with a transport error while
its two siblings stream their bytes normally; the destination directory then
lists one readable artifact. -/
def envOneSegFails : Env :=
  { headResponse := some [("Content-Length", "3000")], dirExists := false,
    mkdirOk := true,
    fetch := fun s _ => if s == 1000 then .connError else .stream [[48, 49]] false,
    listing := listingOneFile }

/-- Environment for a fully successful discovery/preparation/transfer whose
destination directory then holds exactly the one readable file of
`listingOneFile`. -/
def envDigestRun : Env :=
  { headResponse := some [("Content-Length", "3000")], dirExists := false,
    mkdirOk := true, fetch := fun _ _ => .stream [[97, 98, 99]] false,
    listing := listingOneFile }

/-! ## Helper lemmas -/

/-- The events of size discovery all belong to stage 0. -/
theorem stageOf_get_content_length (env : Env) :
    ∀ ev ∈ (get_content_length env).1, stageOf ev = 0 := by
  unfold get_content_length
  split
  · intro ev hev
    simp only [List.mem_cons, List.not_mem_nil, or_false] at hev
    rcases hev with rfl | rfl <;> rfl
  · split
    · intro ev hev
      simp only [List.mem_cons, List.not_mem_nil, or_false] at hev
      subst hev; rfl
    · split <;>
        (intro ev hev
         simp only [List.mem_cons, List.not_mem_nil, or_false] at hev
         subst hev; rfl)

/-- The events of destination preparation all belong to stage 1. -/
theorem stageOf_create_temp_dir (env : Env) :
    ∀ ev ∈ (create_temp_dir env).1, stageOf ev = 1 := by
  unfold create_temp_dir
  split
  · intro ev hev; cases hev
  · split <;>
      (intro ev hev
       simp only [List.mem_cons, List.not_mem_nil, or_false] at hev
       subst hev; rfl)

/-- The events of one segment fetch all belong to stage 2. -/
theorem stageOf_download_chunk (env : Env) (start stop : ℤ) (d : String) :
    ∀ ev ∈ (download_chunk env start stop d).1, stageOf ev = 2 := by
  unfold download_chunk
  split
  · intro ev hev
    simp only [List.mem_cons, List.not_mem_nil, or_false] at hev
    rcases hev with rfl | rfl <;> rfl
  · intro ev hev
    rcases List.mem_append.mp hev with h | h
    · simp only [List.mem_cons, List.not_mem_nil, or_false] at h
      rcases h with rfl | rfl <;> rfl
    · split at h
      · simp only [List.mem_cons, List.not_mem_nil, or_false] at h
        subst h; rfl
      · cases h

/-- The events of the whole transfer stage all belong to stage 2. -/
theorem stageOf_download_chunks (env : Env) (cl : ℤ) :
    ∀ ev ∈ (download_chunks env cl).1, stageOf ev = 2 := by
  intro ev hev
  have base : ∀ e ∈ ((chunkRuns env cl).map Prod.fst).flatten, stageOf e = 2 := by
    intro e he
    obtain ⟨l, hl, hel⟩ := List.mem_flatten.mp he
    obtain ⟨run, hrun, hl'⟩ := List.mem_map.mp hl
    obtain ⟨r, _, hrun'⟩ := List.mem_map.mp hrun
    subst hrun'
    subst hl'
    exact stageOf_download_chunk env r.1 r.2 TEMP_DIR e hel
  unfold download_chunks at hev
  split at hev
  · exact base ev hev
  · rcases List.mem_append.mp hev with h | h
    · exact base ev h
    · simp only [List.mem_cons, List.not_mem_nil, or_false] at h
      subst h; rfl

/-- Digesting performs at most a read of the first listed file and one log
event: the first iteration always raises (a failed read, or the `KeyError`
from the named-field format call) and returns `False`; an empty listing
returns `True` with no events. -/
theorem compute_file_hashes_eq (l : List (String × Option (List ℕ))) :
    compute_file_hashes l =
      match l with
      | [] => ([], true)
      | (_, none) :: _ => ([.logHashError "FileNotFoundError"], false)
      | (filename, some _) :: _ =>
        ([.fileRead (TEMP_DIR ++ "/" ++ filename),
          .logHashError "KeyError: filename"], false) := by
  match l with
  | [] => rfl
  | (name, none) :: rest => rfl
  | (name, some c) :: rest => rfl

/-- Digesting a listing whose first file is unreadable: one error log,
failure. -/
theorem compute_file_hashes_cons_none (n : String)
    (rest : List (String × Option (List ℕ))) :
    compute_file_hashes ((n, none) :: rest) =
      ([.logHashError "FileNotFoundError"], false) := rfl

/-- Digesting a listing whose first file is readable: the read happens, then
the format call's KeyError is logged and the pass fails. -/
theorem compute_file_hashes_cons_some (n : String) (c : List ℕ)
    (rest : List (String × Option (List ℕ))) :
    compute_file_hashes ((n, some c) :: rest) =
      ([.fileRead (TEMP_DIR ++ "/" ++ n),
        .logHashError "KeyError: filename"], false) := rfl

/-- The events of the digesting stage all belong to stage 3. -/
theorem stageOf_compute_file_hashes (l : List (String × Option (List ℕ))) :
    ∀ ev ∈ (compute_file_hashes l).1, stageOf ev = 3 := by
  rw [compute_file_hashes_eq]
  match l with
  | [] => intro ev hev; cases hev
  | (name, none) :: rest =>
    intro ev hev
    simp only [List.mem_cons, List.not_mem_nil, or_false] at hev
    subst hev; rfl
  | (name, some c) :: rest =>
    intro ev hev
    simp only [List.mem_cons, List.not_mem_nil, or_false] at hev
    rcases hev with rfl | rfl <;> rfl

/-- A list whose events all sit at one stage is monotone in `stageOf`. -/
theorem pairwise_stage_of_const {l : List Event} {k : ℕ}
    (h : ∀ ev ∈ l, stageOf ev = k) :
    l.Pairwise (fun a b => stageOf a ≤ stageOf b) := by
  induction l with
  | nil => exact List.Pairwise.nil
  | cons hd tl ih =>
    refine List.Pairwise.cons (fun b hb => ?_)
      (ih fun ev hev => h ev (List.mem_cons_of_mem _ hev))
    rw [h hd (List.mem_cons_self _ _), h b (List.mem_cons_of_mem _ hb)]

/-- Concatenating an earlier-stage block before a later-stage block keeps the
trace monotone in `stageOf`. -/
theorem pairwise_stage_append {l₁ l₂ : List Event} {k : ℕ}
    (h₁ : ∀ ev ∈ l₁, stageOf ev ≤ k) (h₂ : ∀ ev ∈ l₂, k ≤ stageOf ev)
    (p₁ : l₁.Pairwise (fun a b => stageOf a ≤ stageOf b))
    (p₂ : l₂.Pairwise (fun a b => stageOf a ≤ stageOf b)) :
    (l₁ ++ l₂).Pairwise (fun a b => stageOf a ≤ stageOf b) := by
  rw [List.pairwise_append]
  exact ⟨p₁, p₂, fun a ha b hb => le_trans (h₁ a ha) (h₂ b hb)⟩

/-- Events at stage at most 1 are neither fetch nor digest events. -/
theorem stage_le_one_props (ev : Event) (h : stageOf ev ≤ 1) :
    isFetchEvent ev = false ∧ isDigestEvent ev = false := by
  cases ev <;> simp_all [stageOf, isFetchEvent, isDigestEvent]

/-- Stage-0 events are not the directory creation. -/
theorem stage_zero_ne_mkdir (ev : Event) (h : stageOf ev = 0) :
    ev ≠ Event.mkdir := by
  cases ev <;> simp_all [stageOf]

/-- `asyncio.gather` over tasks that all return normally returns normally. -/
theorem gather_all_ok : ∀ l : List (PyResult Unit),
    (∀ r ∈ l, r = .ok ()) → gather l = .ok (l.map fun _ => ()) := by
  intro l
  induction l with
  | nil => intro _; rfl
  | cons hd tl ih =>
    intro h
    have hhd := h hd (List.mem_cons_self _ _)
    subst hhd
    unfold gather
    rw [ih fun r hr => h r (List.mem_cons_of_mem _ hr)]
    rfl

/-- Every segment fetch returns normally: the blanket `except` in
`download_chunk` converts every failure into a log line. -/
theorem download_chunk_ok (env : Env) (start stop : ℤ) (d : String) :
    (download_chunk env start stop d).2 = .ok () := by
  unfold download_chunk
  split <;> rfl

/-- The transfer stage always resolves to success, with the events of all
segment fetches performed. -/
theorem download_chunks_eq (env : Env) (cl : ℤ) :
    download_chunks env cl = (((chunkRuns env cl).map Prod.fst).flatten, true) := by
  unfold download_chunks
  rw [gather_all_ok]
  intro r hr
  obtain ⟨run, hrun, hr'⟩ := List.mem_map.mp hr
  obtain ⟨x, _, hx⟩ := List.mem_map.mp hrun
  subst hx
  subst hr'
  exact download_chunk_ok env x.1 x.2 TEMP_DIR

/-- The three ranges the loop of `download_chunks` plans, in closed form. -/
theorem plannedRanges_three (ts : ℤ) :
    plannedRanges ts 3 =
      [(0, Int.fdiv ts 3 - 1), (Int.fdiv ts 3, 2 * Int.fdiv ts 3 - 1),
       (2 * Int.fdiv ts 3, ts)] := by
  simp [plannedRanges, List.range_succ]
  ring_nf

/-- Floor division agrees with Euclidean division on nonnegative divisors. -/
theorem fdiv_three_eq (ts : ℤ) : Int.fdiv ts 3 = ts / 3 :=
  Int.fdiv_eq_ediv _ (by norm_num)

/-- When size discovery raises, the session ends immediately with only the
discovery events. -/
theorem download_repo_crashed (env : Env) (e : String)
    (h : (get_content_length env).2 = .exn e) :
    download_repo env = ((get_content_length env).1, .crashed e) := by
  unfold download_repo
  rw [h]

/-- When size discovery resolves to `None`, the session returns with only the
discovery events. -/
theorem download_repo_disc_none (env : Env)
    (h : (get_content_length env).2 = .ok none) :
    download_repo env = ((get_content_length env).1, .discoveryFailed) := by
  unfold download_repo
  rw [h]

/-- When discovery yields a size but preparation fails, the session returns
with only the discovery and preparation events. -/
theorem download_repo_prep_false (env : Env) (n : ℤ)
    (hd : (get_content_length env).2 = .ok (some n))
    (hp : (create_temp_dir env).2 = false) :
    download_repo env =
      ((get_content_length env).1 ++ (create_temp_dir env).1, .prepFailed) := by
  unfold download_repo
  rw [hd, hp]
  simp

/-- When discovery yields a size and preparation succeeds, the session runs
transfer (which always reports success) and then digesting. -/
theorem download_repo_prep_true (env : Env) (n : ℤ)
    (hd : (get_content_length env).2 = .ok (some n))
    (hp : (create_temp_dir env).2 = true) :
    download_repo env =
      ((get_content_length env).1 ++ (create_temp_dir env).1 ++
        (download_chunks env n).1 ++ (compute_file_hashes env.listing).1,
        if (compute_file_hashes env.listing).2 then .completed
        else .digestFailed) := by
  unfold download_repo
  rw [hd, hp]
  simp [download_chunks_eq]

/-! ## Claims about the range plan -/

/-- C8: for a total size of 3000 bytes split into the three configured
segments, the planned ranges are exactly (0, 999), (1000, 1999),
(2000, 3000), in that order. -/
theorem plannedRanges_3000_3 :
    plannedRanges 3000 3 = [(0, 999), (1000, 1999), (2000, 3000)] := by
  decide

/-- C2 counterexample: at totalSize 5 with segmentCount 2 the planned ranges
are (0, 1) and (2, 3); byte offset 4 lies in [0, 5) yet is covered by no
planned range, so the claimed coverage fails for this totalSize and
segmentCount. -/
theorem plannedRanges_coverage_fails_5_2 :
    plannedRanges 5 2 = [(0, 1), (2, 3)] ∧
    (plannedRanges 5 2).filter
      (fun r => decide (r.1 ≤ 4) && decide ((4 : ℤ) ≤ r.2)) = [] := by
  decide

/-- C2 amended: with the segment count fixed at the configured
`NUM_OF_BLOCKS = 3`, for every totalSize > 0 the planned ranges number
exactly 3, cover every byte offset in [0, totalSize), and are pairwise
non-overlapping (the final segment's deliberate extension to
`end = totalSize` overlaps no sibling). -/
theorem plannedRanges_cover_three (ts : ℤ) (hts : 0 < ts) :
    (plannedRanges ts 3).length = 3 ∧
    (∀ off : ℤ, 0 ≤ off → off < ts →
      ∃ r ∈ plannedRanges ts 3, r.1 ≤ off ∧ off ≤ r.2) ∧
    (plannedRanges ts 3).Pairwise
      (fun r₁ r₂ => ∀ off : ℤ,
        ¬(r₁.1 ≤ off ∧ off ≤ r₁.2 ∧ r₂.1 ≤ off ∧ off ≤ r₂.2)) := by
  rw [plannedRanges_three, fdiv_three_eq]
  refine ⟨rfl, ?_, ?_⟩
  · intro off h0 hlt
    by_cases h1 : off ≤ ts / 3 - 1
    · exact ⟨(0, ts / 3 - 1), by simp, by omega⟩
    · by_cases h2 : off ≤ 2 * (ts / 3) - 1
      · exact ⟨(ts / 3, 2 * (ts / 3) - 1), by simp, by omega⟩
      · exact ⟨(2 * (ts / 3), ts), by simp, by omega⟩
  · refine List.Pairwise.cons ?_ (List.Pairwise.cons ?_
      (List.Pairwise.cons ?_ List.Pairwise.nil))
    · intro r hr off
      simp only [List.mem_cons, List.not_mem_nil, or_false] at hr
      rcases hr with rfl | rfl <;> (dsimp only; omega)
    · intro r hr off
      simp only [List.mem_cons, List.not_mem_nil, or_false] at hr
      subst hr
      dsimp only
      omega
    · intro r hr off
      cases hr

/-- C2 amended, instantiated at totalSize 3000. -/
theorem plannedRanges_cover_three_witness :
    (0 : ℤ) < 3000 ∧
    ((plannedRanges 3000 3).length = 3 ∧
     (∀ off : ℤ, 0 ≤ off → off < 3000 →
       ∃ r ∈ plannedRanges 3000 3, r.1 ≤ off ∧ off ≤ r.2) ∧
     (plannedRanges 3000 3).Pairwise
       (fun r₁ r₂ => ∀ off : ℤ,
         ¬(r₁.1 ≤ off ∧ off ≤ r₁.2 ∧ r₂.1 ≤ off ∧ off ≤ r₂.2))) :=
  ⟨by norm_num, plannedRanges_cover_three 3000 (by norm_num)⟩

/-- C3 counterexample: at totalSize 10 with segmentCount 1 there is exactly
one planned segment — necessarily the last — and its end offset is 9, not
the claimed totalSize 10 (the source adjusts index 2, which does not exist
here). -/
theorem lastRange_not_forced_10_1 :
    (plannedRanges 10 1).length = 1 ∧
    ((plannedRanges 10 1).getD 0 (0, 0)).2 ≠ 10 := by
  decide

/-- C3 amended: the boundary adjustment is applied to the segment at the
hard-coded index 2, not to index segmentCount - 1 in general; with the
configured `NUM_OF_BLOCKS = 3` that is exactly the last segment, so for
every totalSize ≥ 0 the last planned segment's end is totalSize while the
two earlier segments keep `start + chunkSize - 1`, an end strictly below
totalSize. -/
theorem lastRange_forced_of_three (ts : ℤ) (h : 0 ≤ ts) :
    (plannedRanges ts 3).map Prod.snd =
      [Int.fdiv ts 3 - 1, 2 * Int.fdiv ts 3 - 1, ts] ∧
    Int.fdiv ts 3 - 1 < ts ∧ 2 * Int.fdiv ts 3 - 1 < ts := by
  rw [plannedRanges_three ts, fdiv_three_eq]
  refine ⟨rfl, ?_, ?_⟩ <;> omega

/-- C3 amended, instantiated at totalSize 3000. -/
theorem lastRange_forced_of_three_witness :
    (0 : ℤ) ≤ 3000 ∧
    ((plannedRanges 3000 3).map Prod.snd =
       [Int.fdiv 3000 3 - 1, 2 * Int.fdiv 3000 3 - 1, 3000] ∧
     Int.fdiv 3000 3 - 1 < 3000 ∧ 2 * Int.fdiv 3000 3 - 1 < 3000) :=
  ⟨by norm_num, lastRange_forced_of_three 3000 (by norm_num)⟩

/-! ## Claims about fetch failure handling -/

/-- C10: `download_chunk` returns normally on every input — the blanket
`except Exception` catches any failure of the range request or the file
write, logging it inside — so `asyncio.gather` in `download_chunks` never
observes a per-segment error and the transfer stage always resolves to
success. -/
theorem download_chunk_never_raises (env : Env) (start stop : ℤ)
    (d : String) (cl : ℤ) :
    (download_chunk env start stop d).2 = PyResult.ok () ∧
    (env.fetch start stop = FetchOutcome.connError →
      Event.logChunkError ∈ (download_chunk env start stop d).1) ∧
    (download_chunks env cl).2 = true := by
  refine ⟨download_chunk_ok env start stop d, ?_, ?_⟩
  · intro hf
    unfold download_chunk
    rw [hf]
    simp
  · rw [download_chunks_eq]

/-- C10 instantiated at the failing middle segment of `envOneSegFails`. -/
theorem download_chunk_never_raises_witness :
    (download_chunk envOneSegFails 1000 1999 TEMP_DIR).2 = PyResult.ok () ∧
    Event.logChunkError ∈ (download_chunk envOneSegFails 1000 1999 TEMP_DIR).1 ∧
    (download_chunks envOneSegFails 3000).2 = true :=
  ⟨(download_chunk_never_raises envOneSegFails 1000 1999 TEMP_DIR 3000).1,
   (download_chunk_never_raises envOneSegFails 1000 1999 TEMP_DIR 3000).2.1 rfl,
   (download_chunk_never_raises envOneSegFails 1000 1999 TEMP_DIR 3000).2.2⟩

/-- C1: evaluation at the failing input.  With segment (1000, 1999) of a
3000-byte transfer failing on a transport error, both sibling segments are
still fetched and written (run to completion, as the claim says), but —
against the claim — `download_chunks` reports success, and the session does
proceed to the digesting stage (the listed artifact is read there and the
run ends at the digest stage, not the transfer stage). -/
theorem segment_failure_reported_as_success :
    (download_chunks envOneSegFails 3000).2 = true ∧
    Event.rangeGet 1000 1999 ∈ (download_chunks envOneSegFails 3000).1 ∧
    Event.logChunkError ∈ (download_chunks envOneSegFails 3000).1 ∧
    Event.fileWrite "temp/temp_0_999" [48, 49] ∈
      (download_chunks envOneSegFails 3000).1 ∧
    Event.fileWrite "temp/temp_2000_3000" [48, 49] ∈
      (download_chunks envOneSegFails 3000).1 ∧
    Event.fileRead "temp/temp_0_999" ∈ (download_repo envOneSegFails).1 ∧
    (download_repo envOneSegFails).2 = SessionEnd.digestFailed := by
  decide

/-! ## Claims about size discovery -/

/-- C4 counterexample: when the `HEAD` response carries no `Content-Length`
header, `get_content_length` returns `int(0)`, which is not `None` — so,
against the claim, the session proceeds past size discovery: the destination
directory is created and the ranged fetches of the size-0 plan are
dispatched. -/
theorem missing_header_session_proceeds :
    (get_content_length envNoHeader).2 = PyResult.ok (some 0) ∧
    Event.mkdir ∈ (download_repo envNoHeader).1 ∧
    Event.rangeGet 0 0 ∈ (download_repo envNoHeader).1 ∧
    (download_repo envNoHeader).2 ≠ SessionEnd.discoveryFailed := by
  decide

/-- C4 amended: the session fails terminally at size discovery when the
`HEAD` connection itself fails (then no directory is created, nothing is
fetched and nothing digested); a response that merely lacks a
Content-Length header is read as size 0 and the session proceeds — the
directory is created and the run does not stop at discovery. -/
theorem discovery_terminal_only_on_connection_failure (env : Env)
    (h : env.headResponse = none) :
    ((download_repo env).2 = SessionEnd.discoveryFailed ∧
     Event.mkdir ∉ (download_repo env).1 ∧
     ∀ ev ∈ (download_repo env).1,
       isFetchEvent ev = false ∧ isDigestEvent ev = false) ∧
    (Event.mkdir ∈ (download_repo envNoHeader).1 ∧
     (download_repo envNoHeader).2 ≠ SessionEnd.discoveryFailed) := by
  have hd : get_content_length env = ([.headRequest, .logConnError], .ok none) := by
    unfold get_content_length
    rw [h]
  have htrace : download_repo env = ([.headRequest, .logConnError], .discoveryFailed) := by
    rw [download_repo_disc_none env (by rw [hd]), hd]
  constructor
  · rw [htrace]
    refine ⟨rfl, by decide, ?_⟩
    intro ev hev
    simp only [List.mem_cons, List.not_mem_nil, or_false] at hev
    rcases hev with rfl | rfl <;> exact ⟨rfl, rfl⟩
  · exact ⟨by decide, by decide⟩

/-- C4 amended, instantiated at the connection-error environment. -/
theorem discovery_terminal_witness :
    envConnError.headResponse = none ∧
    (((download_repo envConnError).2 = SessionEnd.discoveryFailed ∧
      Event.mkdir ∉ (download_repo envConnError).1 ∧
      ∀ ev ∈ (download_repo envConnError).1,
        isFetchEvent ev = false ∧ isDigestEvent ev = false) ∧
     (Event.mkdir ∈ (download_repo envNoHeader).1 ∧
      (download_repo envNoHeader).2 ≠ SessionEnd.discoveryFailed)) :=
  ⟨rfl, discovery_terminal_only_on_connection_failure envConnError rfl⟩

/-! ## Claims about the digesting pass -/

/-- C5: evaluation at the failing input.  Over a destination directory whose
single file is perfectly readable, the digesting pass reads the file but then
`"{filename}: {hash_digest}".format(filename, hash_digest)` raises
`KeyError('filename')` (named fields resolve only against keyword
arguments), the `except` logs it, and the stage resolves to failure with no
artifact/digest line ever reported — against the claim (and against the
repository's own `TestDownloadRepo`, which expects the
`"name: digest"` info line). -/
theorem digest_fails_on_readable_listing :
    (compute_file_hashes listingOneFile).2 = false ∧
    (compute_file_hashes listingOneFile).1 =
      [Event.fileRead "temp/temp_0_999",
       Event.logHashError "KeyError: filename"] ∧
    pyFormat hashLineTemplate ["temp_0_999", sha256hex [97, 98, 99]] [] =
      PyResult.exn "KeyError: filename" ∧
    (∀ s, Event.logInfo s ∉ (compute_file_hashes listingOneFile).1) ∧
    (download_repo envDigestRun).2 = SessionEnd.digestFailed := by
  refine ⟨rfl, rfl, rfl, ?_, ?_⟩
  · intro s hs
    have heq : (compute_file_hashes listingOneFile).1 =
        [Event.fileRead "temp/temp_0_999",
         Event.logHashError "KeyError: filename"] := rfl
    rw [heq] at hs
    simp only [List.mem_cons, List.not_mem_nil, or_false] at hs
    rcases hs with h | h <;> cases h
  · decide

/-- C7: if any single listed file is unreadable, the digesting pass resolves
to failure, never reports any digest line, and aborts after at most its
first iteration (at most one read and one error log happen). -/
theorem digest_single_failure_aborts (l : List (String × Option (List ℕ)))
    (name : String) (h : (name, (none : Option (List ℕ))) ∈ l) :
    (compute_file_hashes l).2 = false ∧
    (∀ s, Event.logInfo s ∉ (compute_file_hashes l).1) ∧
    (compute_file_hashes l).1.length ≤ 2 := by
  rcases l with _ | ⟨⟨n, c⟩, rest⟩
  · cases h
  · rcases c with _ | c
    · rw [compute_file_hashes_cons_none]
      refine ⟨rfl, ?_, by decide⟩
      intro s hs
      simp only [List.mem_cons, List.not_mem_nil, or_false] at hs
      cases hs
    · rw [compute_file_hashes_cons_some]
      refine ⟨rfl, ?_, le_of_eq rfl⟩
      intro s hs
      simp only [List.mem_cons, List.not_mem_nil, or_false] at hs
      rcases hs with h' | h' <;> cases h'

/-- C7 instantiated at a one-entry listing whose file is missing. -/
theorem digest_single_failure_aborts_witness :
    (("gone", (none : Option (List ℕ))) ∈
      [(("gone" : String), (none : Option (List ℕ)))]) ∧
    ((compute_file_hashes [("gone", none)]).2 = false ∧
     (∀ s, Event.logInfo s ∉ (compute_file_hashes [("gone", none)]).1) ∧
     (compute_file_hashes [("gone", none)]).1.length ≤ 2) :=
  ⟨by decide, digest_single_failure_aborts [("gone", none)] "gone" (by decide)⟩

/-! ## Claims about the digest itself -/

/-- Each 32-bit word renders as exactly eight characters. -/
theorem wordHex_length (w : ℕ) : (wordHex w).length = 8 := rfl

/-- A nibble always renders as one of the sixteen hex digits. -/
theorem nibbleChar_mem (n : ℕ) : nibbleChar n ∈ hexDigitChars := by
  match n with
  | 0 => decide
  | 1 => decide
  | 2 => decide
  | 3 => decide
  | 4 => decide
  | 5 => decide
  | 6 => decide
  | 7 => decide
  | 8 => decide
  | 9 => decide
  | 10 => decide
  | 11 => decide
  | 12 => decide
  | 13 => decide
  | 14 => decide
  | 15 => decide
  | m + 16 =>
    show 'f' ∈ hexDigitChars
    decide

/-- Every character of a word's rendering is a hex digit. -/
theorem wordHex_mem (w : ℕ) : ∀ ch ∈ wordHex w, ch ∈ hexDigitChars := by
  intro ch hch
  unfold wordHex at hch
  simp only [List.mem_cons, List.not_mem_nil, or_false] at hch
  rcases hch with rfl | rfl | rfl | rfl | rfl | rfl | rfl | rfl <;>
    exact nibbleChar_mem _

/-- The hexdigest is always 64 characters long. -/
theorem sha256hex_length (msg : List ℕ) : (sha256hex msg).length = 64 := rfl

/-- Every character of the hexdigest is a lowercase hex digit. -/
theorem sha256hex_hex (msg : List ℕ) :
    ∀ ch ∈ (sha256hex msg).data, ch ∈ hexDigitChars := by
  intro ch hch
  unfold sha256hex at hch
  simp only [List.mem_append] at hch
  rcases hch with (((((((h | h) | h) | h) | h) | h) | h) | h) <;>
    exact wordHex_mem _ ch h

/-- C9: the digest reported for an unmodified file is a pure function of its
byte content — two computations over the same stored content return the
identical result — and that result is always a fixed-length (64-character)
string of hexadecimal digits. -/
theorem digest_deterministic (path : String) (content : List ℕ) :
    (download_and_hash_file path (some content)).2 =
      PyResult.ok (sha256hex content) ∧
    sha256hex content = sha256hex content ∧
    (sha256hex content).length = 64 ∧
    ∀ ch ∈ (sha256hex content).data, ch ∈ hexDigitChars :=
  ⟨rfl, rfl, sha256hex_length content, sha256hex_hex content⟩

/-! ## Claim about stage ordering -/

/-- C6: in every run the observable events are monotone in the stage order
(size discovery, destination preparation, transfer, digesting); if size
discovery fails the directory is never created and nothing is fetched or
digested; if destination preparation fails nothing is fetched or digested. -/
theorem session_stage_order (env : Env) :
    (download_repo env).1.Pairwise (fun a b => stageOf a ≤ stageOf b) ∧
    ((get_content_length env).2 = PyResult.ok none →
      Event.mkdir ∉ (download_repo env).1 ∧
      ∀ ev ∈ (download_repo env).1,
        isFetchEvent ev = false ∧ isDigestEvent ev = false) ∧
    ((create_temp_dir env).2 = false →
      ∀ ev ∈ (download_repo env).1,
        isFetchEvent ev = false ∧ isDigestEvent ev = false) := by
  have hd0 := stageOf_get_content_length env
  have hp1 := stageOf_create_temp_dir env
  have hg3 := stageOf_compute_file_hashes env.listing
  refine ⟨?_, ?_, ?_⟩
  · rcases hres : (get_content_length env).2 with a | e
    · rcases a with _ | n
      · rw [download_repo_disc_none env hres]
        exact pairwise_stage_of_const hd0
      · have hc2 := stageOf_download_chunks env n
        cases hprep : (create_temp_dir env).2
        · rw [download_repo_prep_false env n hres hprep]
          refine pairwise_stage_append (k := 0) ?_ ?_
            (pairwise_stage_of_const hd0) (pairwise_stage_of_const hp1)
          · intro ev hev
            exact le_of_eq (hd0 ev hev)
          · intro ev _
            exact Nat.zero_le _
        · rw [download_repo_prep_true env n hres hprep]
          refine pairwise_stage_append (k := 2) ?_ ?_ ?_
            (pairwise_stage_of_const hg3)
          · intro ev hev
            rcases List.mem_append.mp hev with h | h
            · rcases List.mem_append.mp h with h' | h'
              · have := hd0 ev h'
                omega
              · have := hp1 ev h'
                omega
            · have := hc2 ev h
              omega
          · intro ev hev
            have := hg3 ev hev
            omega
          · refine pairwise_stage_append (k := 1) ?_ ?_ ?_
              (pairwise_stage_of_const hc2)
            · intro ev hev
              rcases List.mem_append.mp hev with h | h
              · have := hd0 ev h
                omega
              · have := hp1 ev h
                omega
            · intro ev hev
              have := hc2 ev hev
              omega
            · refine pairwise_stage_append (k := 0) ?_ ?_
                (pairwise_stage_of_const hd0) (pairwise_stage_of_const hp1)
              · intro ev hev
                exact le_of_eq (hd0 ev hev)
              · intro ev _
                exact Nat.zero_le _
    · rw [download_repo_crashed env e hres]
      exact pairwise_stage_of_const hd0
  · intro hnone
    rw [download_repo_disc_none env hnone]
    constructor
    · intro hmem
      exact stage_zero_ne_mkdir _ (hd0 _ hmem) rfl
    · intro ev hev
      refine stage_le_one_props ev ?_
      have := hd0 ev hev
      omega
  · intro hp
    rcases hres : (get_content_length env).2 with a | e
    · rcases a with _ | n
      · rw [download_repo_disc_none env hres]
        intro ev hev
        refine stage_le_one_props ev ?_
        have := hd0 ev hev
        omega
      · rw [download_repo_prep_false env n hres hp]
        intro ev hev
        refine stage_le_one_props ev ?_
        rcases List.mem_append.mp hev with h | h
        · have := hd0 ev h
          omega
        · have := hp1 ev h
          omega
    · rw [download_repo_crashed env e hres]
      intro ev hev
      refine stage_le_one_props ev ?_
      have := hd0 ev hev
      omega

/-- C6 instantiated at the connection-error environment, discharging the
discovery-failure hypothesis. -/
theorem session_stage_order_witness :
    (get_content_length envConnError).2 = PyResult.ok none ∧
    (Event.mkdir ∉ (download_repo envConnError).1 ∧
     ∀ ev ∈ (download_repo envConnError).1,
       isFetchEvent ev = false ∧ isDigestEvent ev = false) :=
  ⟨rfl, (session_stage_order envConnError).2.1 rfl⟩
